import Mathlib

/-! Scaling manager: the mastership-gated control loops of `main.go`.

A shallow embedding of the two polling loops of `src/main.go`:

* `main` (lines 26-58): the main control loop, and
* `periodicProvisionCheck` (lines 64-105): the recovery watchdog.

The packages `cluster`, `config`, `fetchmetrics`, `provision`, `task` and
`utils` are not part of `src/`; every function of theirs that `main.go` calls
is an oracle whose answers for one tick are collected in `TickEnv`.  A loop
body is a pure function from the oracle answers of the tick and the loop
variables to the new loop variables, the ordered list of calls that `main.go`
itself makes during the tick, and the way control leaves the body.

The package-level variable `state` is unexported and is handed only to
`state.GetCurrentState`, `provision.GetRecommendation`, `provision.ScaleOut`
and `provision.ScaleIn`; these are the only calls that can change it.  Each
loop body is first given as a sequential program (`mainTick`,
`periodicProvisionCheckTick`): a write to `state` made by the other goroutine
between two ticks is absorbed by the refresh oracle of the next tick.  `main`
starts `periodicProvisionCheck` as a goroutine (line 30) on the same `state`, so
`mainTickShared` gives the body of the main loop once more with the writes of
that goroutine that land between two accesses of `state` by the tick.
-/

namespace ScalingManager

/-! ## Data model -/

/-- The part of `provision.State` that `main.go` reads: the field `CurrentState`. -/
structure State where
  CurrentState : String
  deriving DecidableEq, Repr

/-- The zero value produced by `new(provision.State)` (line 17). -/
def State.new : State := ⟨""⟩

/-- The `OsCredentials` of the cluster configuration (lines 46-47, 79-80). -/
structure OsCredentials where
  OsAdminUsername : String
  OsAdminPassword : String
  deriving DecidableEq, Repr

/-- The `ClusterDetails` of the configuration, as far as `main.go` reads it. -/
structure ClusterDetails where
  OsCredentials : OsCredentials
  deriving DecidableEq, Repr

/-- The task list of the configuration; its elements are not interpreted by `main.go`. -/
abbrev Tasks := List String

/-- The list returned by `task.EvaluateTask`; its elements are not interpreted by `main.go`. -/
abbrev RecommendationList := List String

/-- The value returned by `config.GetConfig`. -/
structure ConfigStruct where
  ClusterDetails : ClusterDetails
  TaskDetails : Tasks
  deriving DecidableEq, Repr

/-- The client handle returned by `utils.CreateOsClient`. -/
structure OsClient where
  handle : Nat
  deriving DecidableEq, Repr

/-- The four loggers of `logger.LOG` used by `main.go`. -/
inductive LogLevel where
  | Debug | Info | Warn | Error
  deriving DecidableEq, Repr

/-- One call made by `main.go`, with the arguments it passes. -/
inductive Call where
  | GetCurrentState
  | CheckIfMaster
  | GetConfig (path : String)
  | CreateOsClient (username password : String)
  | FetchMetrics (osClient : OsClient)
  | EvaluateTask (tasks : Tasks) (osClient : OsClient)
  | GetRecommendation (state : State) (recommendationList : RecommendationList)
      (osClient : OsClient)
  | ScaleOut (cfg : ClusterDetails) (state : State) (osClient : OsClient)
  | ScaleIn (cfg : ClusterDetails) (state : State) (osClient : OsClient)
  | Println (level : LogLevel) (args : List String)
  deriving DecidableEq, Repr

/-- The external functions that `main.go` calls. -/
inductive Fn where
  | GetCurrentState | CheckIfMaster | GetConfig | CreateOsClient | FetchMetrics
  | EvaluateTask | GetRecommendation | ScaleOut | ScaleIn | Println
  deriving DecidableEq, Repr

/-- The function a call invokes. -/
def Call.fn : Call → Fn
  | .GetCurrentState => .GetCurrentState
  | .CheckIfMaster => .CheckIfMaster
  | .GetConfig _ => .GetConfig
  | .CreateOsClient _ _ => .CreateOsClient
  | .FetchMetrics _ => .FetchMetrics
  | .EvaluateTask _ _ => .EvaluateTask
  | .GetRecommendation _ _ _ => .GetRecommendation
  | .ScaleOut _ _ _ => .ScaleOut
  | .ScaleIn _ _ _ => .ScaleIn
  | .Println _ _ => .Println

/-- How often the function `f` is invoked in a list of calls. -/
def invocations (f : Fn) (calls : List Call) : Nat :=
  (calls.filter (fun c => c.fn == f)).length

/-- The answers of the external functions during one tick.

* `getCurrentState st` is the value of `state` after `state.GetCurrentState()`
  was called on `st`, together with `true` when the refresh succeeded; `main.go`
  calls it as a statement, so the second component never reaches the caller;
* `fetchMetrics` is `true` when `fetch.FetchMetrics` succeeded; it too is called
  as a statement;
* `getRecommendation`, `scaleOut` and `scaleIn` receive the pointer `state` and
  return the value it holds afterwards. -/
structure TickEnv where
  getCurrentState : State → State × Bool
  checkIfMaster : Bool
  getConfig : String → Except String ConfigStruct
  createOsClient : String → String → OsClient
  fetchMetrics : OsClient → Bool
  evaluateTask : Tasks → OsClient → RecommendationList
  getRecommendation : State → RecommendationList → OsClient → State
  scaleOut : ClusterDetails → State → OsClient → State × Bool
  scaleIn : ClusterDetails → State → OsClient → State × Bool

/-! ## `strings.Contains` -/

/-- Whether the second list is a prefix of the first. -/
def startsWithChars : List Char → List Char → Bool
  | _, [] => true
  | [], _ :: _ => false
  | c :: cs, p :: ps => c == p && startsWithChars cs ps

/-- Whether the second list occurs in the first as a contiguous block. -/
def containsChars : List Char → List Char → Bool
  | [], sub => startsWithChars [] sub
  | c :: cs, sub => startsWithChars (c :: cs) sub || containsChars cs sub

/-- Go's `strings.Contains(s, substr)`. -/
def stringsContains (s substr : String) : Bool :=
  containsChars s.toList substr.toList

/-! ## Loops -/

/-- How control leaves the body of a `for range` loop: `next` when the body
falls through or executes `continue`, `ret` when it executes `return`. -/
inductive Control where
  | next | ret
  deriving DecidableEq, Repr

/-- The outcome of one execution of a loop body over loop variables `σ`. -/
structure Iteration (σ : Type) where
  vars : σ
  calls : List Call
  control : Control
  deriving DecidableEq, Repr

/-- The loop `for range ticker { body }` run for the ticks of `envs`: the
iterations that are executed, in order, each paired with the value of the loop
variables on entry.  The iteration of tick `i` is at position `i`; after a
`return` no further iteration is executed. -/
def forRange {σ : Type} (body : TickEnv → σ → Iteration σ) :
    σ → List TickEnv → List (σ × Iteration σ)
  | _, [] => []
  | s, env :: rest =>
    (s, body env s) :: (match (body env s).control with
      | .next => forRange body (body env s).vars rest
      | .ret => [])

/-! ## `main` (lines 33-57) -/

/-- The body of the `for range ticker` loop of `main`; the loop variable is the
global `state`. -/
def mainTick (env : TickEnv) (state : State) : Iteration State :=
  -- state.GetCurrentState()
  let state1 := (env.getCurrentState state).1
  -- if cluster.CheckIfMaster() && state.CurrentState == "normal"
  if env.checkIfMaster && state1.CurrentState == "normal" then
    -- configStruct, err := config.GetConfig("config.yaml")
    match env.getConfig "config.yaml" with
    | .error err =>
      -- two log lines, then `continue`
      { vars := state1
        calls := [.GetCurrentState, .CheckIfMaster, .GetConfig "config.yaml",
          .Println .Error ["The recommendation can not be made as there is an error in the validation of config file."],
          .Println .Error [err]]
        control := .next }
    | .ok configStruct =>
      let cfg := configStruct.ClusterDetails
      let osClient := env.createOsClient cfg.OsCredentials.OsAdminUsername
        cfg.OsCredentials.OsAdminPassword
      -- fetch.FetchMetrics(osClient); task.Tasks = configStruct.TaskDetails
      let tasks := configStruct.TaskDetails
      -- recommendationList := task.EvaluateTask(osClient)
      let recommendationList := env.evaluateTask tasks osClient
      -- provision.GetRecommendation(state, recommendationList, osClient)
      let state2 := env.getRecommendation state1 recommendationList osClient
      { vars := state2
        calls := [.GetCurrentState, .CheckIfMaster, .GetConfig "config.yaml",
          .CreateOsClient cfg.OsCredentials.OsAdminUsername cfg.OsCredentials.OsAdminPassword,
          .FetchMetrics osClient,
          .EvaluateTask tasks osClient,
          .GetRecommendation state1 recommendationList osClient]
        control := .next }
  else
    { vars := state1, calls := [.GetCurrentState, .CheckIfMaster], control := .next }

/-- The main control loop run for the ticks of `envs`. -/
def mainLoop (state : State) (envs : List TickEnv) : List (State × Iteration State) :=
  forRange mainTick state envs

/-! ## `main` next to the watchdog goroutine -/

/-- The writes of the watchdog goroutine (started at line 30, writing `state` at
lines 68, 83 and 92) that land while a tick of `main` is between two of its own
accesses of `state`:

* `beforeGuard`: after `state.GetCurrentState()` of line 34 has returned and
  before the guard of line 36 reads `state.CurrentState`;
* `beforeGetRecommendation`: after that read and before
  `provision.GetRecommendation` receives `state` at line 55. -/
structure SharedWrites where
  beforeGuard : State → State
  beforeGetRecommendation : State → State

/-- No write of the other goroutine lands during the tick. -/
def SharedWrites.none : SharedWrites := ⟨fun st => st, fun st => st⟩

/-- The body of the `for range ticker` loop of `main`, run while the watchdog
goroutine makes the writes `w` to the shared `state`. -/
def mainTickShared (w : SharedWrites) (env : TickEnv) (state : State) : Iteration State :=
  -- state.GetCurrentState()
  let state1 := (env.getCurrentState state).1
  -- what `state` holds when the guard reads it
  let stateRead := w.beforeGuard state1
  -- if cluster.CheckIfMaster() && state.CurrentState == "normal"
  if env.checkIfMaster && stateRead.CurrentState == "normal" then
    match env.getConfig "config.yaml" with
    | .error err =>
      { vars := stateRead
        calls := [.GetCurrentState, .CheckIfMaster, .GetConfig "config.yaml",
          .Println .Error ["The recommendation can not be made as there is an error in the validation of config file."],
          .Println .Error [err]]
        control := .next }
    | .ok configStruct =>
      let cfg := configStruct.ClusterDetails
      let osClient := env.createOsClient cfg.OsCredentials.OsAdminUsername
        cfg.OsCredentials.OsAdminPassword
      let tasks := configStruct.TaskDetails
      let recommendationList := env.evaluateTask tasks osClient
      -- what `state` holds when provision.GetRecommendation receives it
      let statePassed := w.beforeGetRecommendation stateRead
      let state2 := env.getRecommendation statePassed recommendationList osClient
      { vars := state2
        calls := [.GetCurrentState, .CheckIfMaster, .GetConfig "config.yaml",
          .CreateOsClient cfg.OsCredentials.OsAdminUsername cfg.OsCredentials.OsAdminPassword,
          .FetchMetrics osClient,
          .EvaluateTask tasks osClient,
          .GetRecommendation statePassed recommendationList osClient]
        control := .next }
  else
    { vars := stateRead, calls := [.GetCurrentState, .CheckIfMaster], control := .next }

/-! ## Phase families -/

/-- The two families of non-idle phases that lines 81 and 90 tell apart. -/
inductive Family where
  | scaleUp | scaleDown
  deriving DecidableEq, Repr

/-- The substring by which a family is recognised (lines 81 and 90). -/
def Family.marker : Family → String
  | .scaleUp => "scaleup"
  | .scaleDown => "scaledown"

/-- The provisioning call of a family (lines 83 and 92). -/
def Family.call : Family → Fn
  | .scaleUp => .ScaleOut
  | .scaleDown => .ScaleIn

/-- The opposite family. -/
def Family.other : Family → Family
  | .scaleUp => .scaleDown
  | .scaleDown => .scaleUp

/-! ## `periodicProvisionCheck` (lines 64-105) -/

/-- The variables of the watchdog loop: the global `state` and the local
`previousMaster`. -/
structure WatchdogVars where
  state : State
  previousMaster : Bool
  deriving DecidableEq, Repr

/-- The body of the `for range tick` loop of `periodicProvisionCheck`. -/
def periodicProvisionCheckTick (env : TickEnv) (v : WatchdogVars) : Iteration WatchdogVars :=
  -- state.GetCurrentState()
  let state1 := (env.getCurrentState v.state).1
  -- currentMaster := cluster.CheckIfMaster()
  let currentMaster := env.checkIfMaster
  if state1.CurrentState != "normal" then
    if !v.previousMaster && currentMaster then
      match env.getConfig "config.yaml" with
      | .error err =>
        -- log.Warn.Println(...); return
        { vars := ⟨state1, v.previousMaster⟩
          calls := [.GetCurrentState, .CheckIfMaster, .GetConfig "config.yaml",
            .Println .Warn ["Unable to get Config from GetConfig()", err]]
          control := .ret }
      | .ok configStruct =>
        let cfg := configStruct.ClusterDetails
        let osClient := env.createOsClient cfg.OsCredentials.OsAdminUsername
          cfg.OsCredentials.OsAdminPassword
        let pre : List Call := [.GetCurrentState, .CheckIfMaster, .GetConfig "config.yaml",
          .CreateOsClient cfg.OsCredentials.OsAdminUsername cfg.OsCredentials.OsAdminPassword]
        if stringsContains state1.CurrentState "scaleup" then
          let r := env.scaleOut cfg state1 osClient
          { vars := ⟨r.1, currentMaster⟩
            calls := pre ++ [.Println .Debug ["Calling scaleOut"],
              .ScaleOut cfg state1 osClient,
              if r.2 then .Println .Info ["Scaleup completed successfully"]
              else .Println .Warn ["Scaleup failed"]]
            control := .next }
        else if stringsContains state1.CurrentState "scaledown" then
          let r := env.scaleIn cfg state1 osClient
          { vars := ⟨r.1, currentMaster⟩
            calls := pre ++ [.Println .Debug ["Calling scaleIn"],
              .ScaleIn cfg state1 osClient,
              if r.2 then .Println .Info ["Scaledown completed successfully"]
              else .Println .Warn ["Scaledown failed"]]
            control := .next }
        else
          { vars := ⟨state1, currentMaster⟩, calls := pre, control := .next }
    else
      -- previousMaster = currentMaster
      { vars := ⟨state1, currentMaster⟩, calls := [.GetCurrentState, .CheckIfMaster],
        control := .next }
  else
    { vars := ⟨state1, currentMaster⟩, calls := [.GetCurrentState, .CheckIfMaster],
      control := .next }

/-- The function `periodicProvisionCheck` run for the ticks of `envs`.
`startMaster` is the answer of the `cluster.CheckIfMaster()` call of line 66,
made once before the first tick. -/
def periodicProvisionCheck (startMaster : Bool) (state : State) (envs : List TickEnv) :
    List (WatchdogVars × Iteration WatchdogVars) :=
  forRange periodicProvisionCheckTick ⟨state, startMaster⟩ envs

/-! ## Test environments -/

/-- A configuration used in the examples. -/
def sampleConfig : ConfigStruct :=
  { ClusterDetails := ⟨⟨"admin", "secret"⟩⟩, TaskDetails := ["task1"] }

/-- An environment in which the refresh sets `CurrentState` to `phase`, the
mastership oracle answers `master`, and `config.GetConfig` answers `cfg`. -/
def envWith (phase : String) (master : Bool) (cfg : Except String ConfigStruct) : TickEnv :=
  { getCurrentState := fun _ => (⟨phase⟩, true)
    checkIfMaster := master
    getConfig := fun _ => cfg
    createOsClient := fun _ _ => ⟨0⟩
    fetchMetrics := fun _ => true
    evaluateTask := fun tasks _ => tasks
    getRecommendation := fun st _ _ => st
    scaleOut := fun _ _ _ => (⟨"normal"⟩, true)
    scaleIn := fun _ _ _ => (⟨"normal"⟩, true) }

/-- An environment like `envWith`, in which `fetch.FetchMetrics` fails. -/
def envNoMetrics (phase : String) (master : Bool) (cfg : Except String ConfigStruct) : TickEnv :=
  { envWith phase master cfg with fetchMetrics := fun _ => false }

/-- Three watchdog ticks with phase `provisioning_scaleup`: the first is
triggered and its configuration fails to load, the second is not master, the
third is master again and its configuration loads. -/
def configErrorRun : List TickEnv :=
  [envWith "provisioning_scaleup" true (.error "invalid config"),
   envWith "provisioning_scaleup" false (.ok sampleConfig),
   envWith "provisioning_scaleup" true (.ok sampleConfig)]

/-- Two watchdog ticks with phase `provisioning_scaledown`, master on both. -/
def masterTwiceRun : List TickEnv :=
  [envWith "provisioning_scaledown" true (.ok sampleConfig),
   envWith "provisioning_scaledown" true (.ok sampleConfig)]

/-- The observation of the mastership oracle that immediately precedes tick `i`
of the watchdog: the start-up sample for the first tick, the answer of the
previous tick otherwise. -/
def precedingObservation (startMaster : Bool) (envs : List TickEnv) : Nat → Option Bool
  | 0 => some startMaster
  | i + 1 => (envs[i]?).map (fun env => env.checkIfMaster)

/-! ## `strings.Contains` is the infix relation -/

theorem startsWithChars_iff (s p : List Char) : startsWithChars s p = true ↔ p <+: s := by
  induction s generalizing p with
  | nil => cases p <;> simp [startsWithChars]
  | cons c cs ih =>
    cases p with
    | nil => simp [startsWithChars]
    | cons q qs =>
      simp only [startsWithChars, Bool.and_eq_true, beq_iff_eq, ih, List.cons_prefix_cons]
      constructor
      · rintro ⟨h1, h2⟩; exact ⟨h1.symm, h2⟩
      · rintro ⟨h1, h2⟩; exact ⟨h1.symm, h2⟩

theorem containsChars_iff (s p : List Char) : containsChars s p = true ↔ p <:+: s := by
  induction s with
  | nil => simp only [containsChars, startsWithChars_iff, List.prefix_nil, List.infix_nil]
  | cons c cs ih =>
    simp only [containsChars, Bool.or_eq_true, startsWithChars_iff, ih, List.infix_cons_iff]

theorem stringsContains_iff (s substr : String) :
    stringsContains s substr = true ↔ substr.toList <:+: s.toList :=
  containsChars_iff s.toList substr.toList

/-! ## Lemmas on the loop bodies -/

theorem mainTickShared_none (env : TickEnv) (state : State) :
    mainTickShared SharedWrites.none env state = mainTick env state := rfl

theorem mainTick_control (env : TickEnv) (state : State) :
    (mainTick env state).control = .next := by
  unfold mainTick
  dsimp only
  split
  · split <;> rfl
  · rfl

theorem mainTick_closed (env : TickEnv) (state : State)
    (h : (env.checkIfMaster && (env.getCurrentState state).1.CurrentState == "normal") = false) :
    mainTick env state =
      { vars := (env.getCurrentState state).1, calls := [.GetCurrentState, .CheckIfMaster],
        control := .next } := by
  unfold mainTick
  simp only [h]
  rfl

theorem mainTick_ok (env : TickEnv) (state : State) (configStruct : ConfigStruct)
    (hm : env.checkIfMaster = true)
    (hp : (env.getCurrentState state).1.CurrentState = "normal")
    (hc : env.getConfig "config.yaml" = .ok configStruct) :
    mainTick env state =
      { vars := env.getRecommendation (env.getCurrentState state).1
          (env.evaluateTask configStruct.TaskDetails
            (env.createOsClient configStruct.ClusterDetails.OsCredentials.OsAdminUsername
              configStruct.ClusterDetails.OsCredentials.OsAdminPassword))
          (env.createOsClient configStruct.ClusterDetails.OsCredentials.OsAdminUsername
            configStruct.ClusterDetails.OsCredentials.OsAdminPassword)
        calls := [.GetCurrentState, .CheckIfMaster, .GetConfig "config.yaml",
          .CreateOsClient configStruct.ClusterDetails.OsCredentials.OsAdminUsername
            configStruct.ClusterDetails.OsCredentials.OsAdminPassword,
          .FetchMetrics
            (env.createOsClient configStruct.ClusterDetails.OsCredentials.OsAdminUsername
              configStruct.ClusterDetails.OsCredentials.OsAdminPassword),
          .EvaluateTask configStruct.TaskDetails
            (env.createOsClient configStruct.ClusterDetails.OsCredentials.OsAdminUsername
              configStruct.ClusterDetails.OsCredentials.OsAdminPassword),
          .GetRecommendation (env.getCurrentState state).1
            (env.evaluateTask configStruct.TaskDetails
              (env.createOsClient configStruct.ClusterDetails.OsCredentials.OsAdminUsername
                configStruct.ClusterDetails.OsCredentials.OsAdminPassword))
            (env.createOsClient configStruct.ClusterDetails.OsCredentials.OsAdminUsername
              configStruct.ClusterDetails.OsCredentials.OsAdminPassword)]
        control := .next } := by
  unfold mainTick
  simp [hm, hp, hc]

theorem mainTick_error (env : TickEnv) (state : State) (err : String)
    (hm : env.checkIfMaster = true)
    (hp : (env.getCurrentState state).1.CurrentState = "normal")
    (hc : env.getConfig "config.yaml" = .error err) :
    mainTick env state =
      { vars := (env.getCurrentState state).1
        calls := [.GetCurrentState, .CheckIfMaster, .GetConfig "config.yaml",
          .Println .Error ["The recommendation can not be made as there is an error in the validation of config file."],
          .Println .Error [err]]
        control := .next } := by
  unfold mainTick
  simp [hm, hp, hc]

theorem watchdogTick_idle (env : TickEnv) (v : WatchdogVars)
    (h : ((env.getCurrentState v.state).1.CurrentState != "normal"
      && (!v.previousMaster && env.checkIfMaster)) = false) :
    periodicProvisionCheckTick env v =
      { vars := ⟨(env.getCurrentState v.state).1, env.checkIfMaster⟩,
        calls := [.GetCurrentState, .CheckIfMaster], control := .next } := by
  unfold periodicProvisionCheckTick
  by_cases h1 : ((env.getCurrentState v.state).1.CurrentState != "normal") = true
  · have h2 : (!v.previousMaster && env.checkIfMaster) = false := by
      rw [h1] at h; simpa using h
    simp only [h1, h2, if_true]
    rfl
  · simp only [h1]
    rfl

theorem watchdogTick_error (env : TickEnv) (v : WatchdogVars) (err : String)
    (hp : (env.getCurrentState v.state).1.CurrentState ≠ "normal")
    (hprev : v.previousMaster = false) (hm : env.checkIfMaster = true)
    (hc : env.getConfig "config.yaml" = .error err) :
    periodicProvisionCheckTick env v =
      { vars := ⟨(env.getCurrentState v.state).1, v.previousMaster⟩
        calls := [.GetCurrentState, .CheckIfMaster, .GetConfig "config.yaml",
          .Println .Warn ["Unable to get Config from GetConfig()", err]]
        control := .ret } := by
  unfold periodicProvisionCheckTick
  simp [hp, hprev, hm, hc]

theorem watchdogTick_scaleup (env : TickEnv) (v : WatchdogVars) (configStruct : ConfigStruct)
    (hp : (env.getCurrentState v.state).1.CurrentState ≠ "normal")
    (hprev : v.previousMaster = false) (hm : env.checkIfMaster = true)
    (hc : env.getConfig "config.yaml" = .ok configStruct)
    (hup : stringsContains (env.getCurrentState v.state).1.CurrentState "scaleup" = true) :
    (periodicProvisionCheckTick env v).calls.map Call.fn =
      [.GetCurrentState, .CheckIfMaster, .GetConfig, .CreateOsClient, .Println, .ScaleOut,
        .Println] ∧
    (periodicProvisionCheckTick env v).control = .next := by
  unfold periodicProvisionCheckTick
  simp only [hp, hprev, hm, hc, hup, bne_iff_ne, ne_eq, not_false_eq_true, Bool.not_false,
    Bool.and_self, if_true]
  constructor
  · simp only [List.map, List.cons_append, List.nil_append]
    split_ifs <;> rfl
  · trivial

theorem watchdogTick_scaledown (env : TickEnv) (v : WatchdogVars) (configStruct : ConfigStruct)
    (hp : (env.getCurrentState v.state).1.CurrentState ≠ "normal")
    (hprev : v.previousMaster = false) (hm : env.checkIfMaster = true)
    (hc : env.getConfig "config.yaml" = .ok configStruct)
    (hup : stringsContains (env.getCurrentState v.state).1.CurrentState "scaleup" = false)
    (hdown : stringsContains (env.getCurrentState v.state).1.CurrentState "scaledown" = true) :
    (periodicProvisionCheckTick env v).calls.map Call.fn =
      [.GetCurrentState, .CheckIfMaster, .GetConfig, .CreateOsClient, .Println, .ScaleIn,
        .Println] ∧
    (periodicProvisionCheckTick env v).control = .next := by
  unfold periodicProvisionCheckTick
  simp only [hp, hprev, hm, hc, hup, hdown, bne_iff_ne, ne_eq, not_false_eq_true, Bool.not_false,
    Bool.and_self, if_true, Bool.false_eq_true, if_false]
  constructor
  · simp only [List.map, List.cons_append, List.nil_append]
    split_ifs <;> rfl
  · trivial

theorem invocations_eq_count (f : Fn) (calls : List Call) :
    invocations f calls = (calls.map Call.fn).count f := by
  unfold invocations
  induction calls with
  | nil => rfl
  | cons c cs ih =>
    simp only [List.filter_cons, List.map_cons, List.count_cons]
    by_cases h : c.fn = f
    · simp [h, ih]
    · have h2 : (c.fn == f) = false := by simpa using h
      simp [h2, ih]

theorem watchdogTick_provision (env : TickEnv) (v : WatchdogVars)
    (h : 0 < invocations .ScaleOut (periodicProvisionCheckTick env v).calls ∨
      0 < invocations .ScaleIn (periodicProvisionCheckTick env v).calls) :
    (env.getCurrentState v.state).1.CurrentState ≠ "normal" ∧ v.previousMaster = false ∧
      env.checkIfMaster = true := by
  by_cases hg : ((env.getCurrentState v.state).1.CurrentState != "normal"
      && (!v.previousMaster && env.checkIfMaster)) = false
  · rw [watchdogTick_idle env v hg] at h
    simp [invocations, Call.fn] at h
  · simpa using hg

theorem watchdogTick_previousMaster (env : TickEnv) (v : WatchdogVars)
    (h : (periodicProvisionCheckTick env v).control = .next) :
    (periodicProvisionCheckTick env v).vars.previousMaster = env.checkIfMaster := by
  unfold periodicProvisionCheckTick at h ⊢
  dsimp only at h ⊢
  split
  · split
    · split
      · simp_all
      · split
        · rfl
        · split <;> rfl
    · rfl
  · rfl

/-! ## Lemmas on the loop -/

theorem forRange_getElem? {σ : Type} (body : TickEnv → σ → Iteration σ) (envs : List TickEnv) :
    ∀ (s : σ) (i : Nat) (x : σ × Iteration σ), (forRange body s envs)[i]? = some x →
      ∃ env, envs[i]? = some env ∧ x.2 = body env x.1 := by
  induction envs with
  | nil => intro s i x h; simp [forRange] at h
  | cons env rest ih =>
    intro s i x h
    cases i with
    | zero =>
      simp only [forRange, List.getElem?_cons_zero, Option.some.injEq] at h
      subst h
      exact ⟨env, by simp, rfl⟩
    | succ j =>
      simp only [forRange, List.getElem?_cons_succ] at h
      cases hc : (body env s).control with
      | next =>
        rw [hc] at h
        obtain ⟨e, he, hx⟩ := ih _ j x h
        exact ⟨e, by simpa using he, hx⟩
      | ret => rw [hc] at h; simp at h

theorem forRange_length_le {σ : Type} (body : TickEnv → σ → Iteration σ) (envs : List TickEnv) :
    ∀ s : σ, (forRange body s envs).length ≤ envs.length := by
  induction envs with
  | nil => intro s; simp [forRange]
  | cons env rest ih =>
    intro s
    simp only [forRange, List.length_cons]
    cases (body env s).control with
    | next => exact Nat.succ_le_succ (ih _)
    | ret => simp

theorem forRange_length_eq {σ : Type} (body : TickEnv → σ → Iteration σ)
    (hbody : ∀ env s, (body env s).control = .next) (envs : List TickEnv) :
    ∀ s : σ, (forRange body s envs).length = envs.length := by
  induction envs with
  | nil => intro s; simp [forRange]
  | cons env rest ih =>
    intro s
    simp only [forRange, List.length_cons, hbody env s]
    rw [ih]

theorem watchdog_entry (envs : List TickEnv) :
    ∀ (v : WatchdogVars) (i : Nat) (x : WatchdogVars × Iteration WatchdogVars),
      (forRange periodicProvisionCheckTick v envs)[i]? = some x →
      some x.1.previousMaster = precedingObservation v.previousMaster envs i := by
  induction envs with
  | nil => intro v i x h; simp [forRange] at h
  | cons env rest ih =>
    intro v i x h
    cases i with
    | zero =>
      simp only [forRange, List.getElem?_cons_zero, Option.some.injEq] at h
      subst h
      rfl
    | succ j =>
      simp only [forRange, List.getElem?_cons_succ] at h
      cases hc : (periodicProvisionCheckTick env v).control with
      | ret => rw [hc] at h; simp at h
      | next =>
        rw [hc] at h
        have hj := ih _ j x h
        rw [watchdogTick_previousMaster env v hc] at hj
        rw [hj]
        cases j with
        | zero => simp [precedingObservation]
        | succ k => simp [precedingObservation]

theorem watchdog_master_run (envs : List TickEnv) :
    ∀ v : WatchdogVars, v.previousMaster = true → (∀ e ∈ envs, e.checkIfMaster = true) →
      (forRange periodicProvisionCheckTick v envs).length = envs.length ∧
      ∀ x ∈ forRange periodicProvisionCheckTick v envs,
        x.2.calls = [.GetCurrentState, .CheckIfMaster] := by
  induction envs with
  | nil => intro v _ _; simp [forRange]
  | cons env rest ih =>
    intro v hv hall
    have hidle := watchdogTick_idle env v (by simp [hv])
    have hrest := ih ⟨(env.getCurrentState v.state).1, env.checkIfMaster⟩
      (hall env (List.mem_cons_self _ _)) (fun e he => hall e (List.mem_cons_of_mem _ he))
    simp only [forRange, hidle, List.length_cons, List.mem_cons]
    refine ⟨by rw [hrest.1], ?_⟩
    intro x hx
    rcases hx with hx | hx
    · rw [hx]
    · exact hrest.2 x hx

theorem mainLoop_length (state : State) (envs : List TickEnv) :
    (mainLoop state envs).length = envs.length :=
  forRange_length_eq mainTick mainTick_control envs state

theorem watchdog_error_ends_loop (startMaster : Bool) (state : State) (env : TickEnv)
    (rest : List TickEnv) (err : String)
    (hp : (env.getCurrentState state).1.CurrentState ≠ "normal")
    (hprev : startMaster = false) (hm : env.checkIfMaster = true)
    (hc : env.getConfig "config.yaml" = .error err) :
    periodicProvisionCheck startMaster state (env :: rest) =
      [(⟨state, startMaster⟩, periodicProvisionCheckTick env ⟨state, startMaster⟩)] := by
  have h := watchdogTick_error env ⟨state, startMaster⟩ err hp hprev hm hc
  simp only [periodicProvisionCheck, forRange]
  rw [h]

/-! ## The claims -/

/-- C2, non-master inaction: on a tick on which `cluster.CheckIfMaster` answers
false, the main control loop and the watchdog both call `state.GetCurrentState`
and `cluster.CheckIfMaster` and nothing else, for every value of `state` and
every retained `previousMaster`; in particular neither invokes
`fetch.FetchMetrics`, `task.EvaluateTask`, `provision.GetRecommendation`,
`provision.ScaleOut` or `provision.ScaleIn`. -/
theorem nonmaster_inaction (env : TickEnv) (state : State) (v : WatchdogVars)
    (hm : env.checkIfMaster = false) :
    (mainTick env state).calls = [.GetCurrentState, .CheckIfMaster] ∧
    (periodicProvisionCheckTick env v).calls = [.GetCurrentState, .CheckIfMaster] ∧
    ∀ f ∈ [Fn.FetchMetrics, Fn.EvaluateTask, Fn.GetRecommendation, Fn.ScaleOut, Fn.ScaleIn],
      invocations f (mainTick env state).calls = 0 ∧
      invocations f (periodicProvisionCheckTick env v).calls = 0 := by
  rw [mainTick_closed env state (by simp [hm]), watchdogTick_idle env v (by simp [hm])]
  refine ⟨rfl, rfl, ?_⟩
  intro f hf
  simp only [List.mem_cons, List.mem_singleton, List.not_mem_nil, or_false] at hf
  rcases hf with h | h | h | h | h <;> subst h <;> simp [invocations, Call.fn]

theorem nonmaster_inaction_witness :
    (mainTick (envWith "normal" false (.ok sampleConfig)) State.new).calls
        = [.GetCurrentState, .CheckIfMaster] ∧
    (periodicProvisionCheckTick (envWith "normal" false (.ok sampleConfig))
        ⟨⟨"provisioning_scaleup"⟩, true⟩).calls = [.GetCurrentState, .CheckIfMaster] ∧
    ∀ f ∈ [Fn.FetchMetrics, Fn.EvaluateTask, Fn.GetRecommendation, Fn.ScaleOut, Fn.ScaleIn],
      invocations f (mainTick (envWith "normal" false (.ok sampleConfig)) State.new).calls = 0 ∧
      invocations f (periodicProvisionCheckTick (envWith "normal" false (.ok sampleConfig))
        ⟨⟨"provisioning_scaleup"⟩, true⟩).calls = 0 :=
  nonmaster_inaction (envWith "normal" false (.ok sampleConfig)) State.new
    ⟨⟨"provisioning_scaleup"⟩, true⟩ rfl

/-- C3, resumption edge-only: in every run of `periodicProvisionCheck`, the
iteration of tick `i` is the loop body run on the oracle answers of tick `i`
with `previousMaster` equal to the observation immediately preceding tick `i`
(the start-up sample for the first tick, the answer of tick `i - 1` otherwise);
it invokes `provision.ScaleOut` or `provision.ScaleIn` only if the refreshed
`state.CurrentState` is not `"normal"`, the oracle answers true on tick `i` and
answered false on the preceding observation; and when the oracle answered true
on the previous tick, tick `i` invokes neither. -/
theorem resumption_edge_only (startMaster : Bool) (state : State) (envs : List TickEnv)
    (i : Nat) (x : WatchdogVars × Iteration WatchdogVars) (env : TickEnv)
    (hx : (periodicProvisionCheck startMaster state envs)[i]? = some x)
    (henv : envs[i]? = some env) :
    x.2 = periodicProvisionCheckTick env x.1 ∧
    some x.1.previousMaster = precedingObservation startMaster envs i ∧
    ((0 < invocations .ScaleOut x.2.calls ∨ 0 < invocations .ScaleIn x.2.calls) →
      (env.getCurrentState x.1.state).1.CurrentState ≠ "normal" ∧
      env.checkIfMaster = true ∧
      precedingObservation startMaster envs i = some false) ∧
    (∀ j envPrev, i = j + 1 → envs[j]? = some envPrev → envPrev.checkIfMaster = true →
      invocations .ScaleOut x.2.calls = 0 ∧ invocations .ScaleIn x.2.calls = 0) := by
  unfold periodicProvisionCheck at hx
  obtain ⟨e, he, hbody⟩ := forRange_getElem? periodicProvisionCheckTick envs _ i x hx
  have hee : env = e := by rw [he] at henv; exact (Option.some.inj henv).symm
  subst hee
  have hprev := watchdog_entry envs ⟨state, startMaster⟩ i x hx
  simp only at hprev
  have hedge : (0 < invocations .ScaleOut x.2.calls ∨ 0 < invocations .ScaleIn x.2.calls) →
      (env.getCurrentState x.1.state).1.CurrentState ≠ "normal" ∧
      x.1.previousMaster = false ∧ env.checkIfMaster = true := by
    intro h
    rw [hbody] at h
    exact watchdogTick_provision env x.1 h
  refine ⟨hbody, hprev, ?_, ?_⟩
  · intro h
    obtain ⟨h1, h2, h3⟩ := hedge h
    exact ⟨h1, h3, by rw [← hprev, h2]⟩
  · intro j envPrev hij hj hmaster
    subst hij
    have hobs : precedingObservation startMaster envs (j + 1) = some true := by
      simp [precedingObservation, hj, hmaster]
    rw [hobs] at hprev
    have hp : x.1.previousMaster = true := Option.some.inj hprev
    constructor
    · by_contra hne
      have := (hedge (Or.inl (Nat.pos_of_ne_zero hne))).2.1
      rw [hp] at this
      exact Bool.noConfusion this
    · by_contra hne
      have := (hedge (Or.inr (Nat.pos_of_ne_zero hne))).2.1
      rw [hp] at this
      exact Bool.noConfusion this

theorem resumption_edge_only_witness :
    ((⟨⟨"normal"⟩, true⟩, ⟨⟨⟨"provisioning_scaledown"⟩, true⟩,
        [.GetCurrentState, .CheckIfMaster], .next⟩) : WatchdogVars × Iteration WatchdogVars).2
      = periodicProvisionCheckTick (envWith "provisioning_scaledown" true (.ok sampleConfig))
          ⟨⟨"normal"⟩, true⟩ ∧
    some true = precedingObservation false masterTwiceRun 1 ∧
    ((0 < invocations .ScaleOut [.GetCurrentState, .CheckIfMaster] ∨
        0 < invocations .ScaleIn [.GetCurrentState, .CheckIfMaster]) →
      ((envWith "provisioning_scaledown" true (.ok sampleConfig)).getCurrentState
        ⟨"normal"⟩).1.CurrentState ≠ "normal" ∧
      (envWith "provisioning_scaledown" true (.ok sampleConfig)).checkIfMaster = true ∧
      precedingObservation false masterTwiceRun 1 = some false) ∧
    (∀ j envPrev, 1 = j + 1 → masterTwiceRun[j]? = some envPrev → envPrev.checkIfMaster = true →
      invocations .ScaleOut [.GetCurrentState, .CheckIfMaster] = 0 ∧
      invocations .ScaleIn [.GetCurrentState, .CheckIfMaster] = 0) :=
  resumption_edge_only false State.new masterTwiceRun 1
    (⟨⟨"normal"⟩, true⟩, ⟨⟨⟨"provisioning_scaledown"⟩, true⟩,
      [.GetCurrentState, .CheckIfMaster], .next⟩)
    (envWith "provisioning_scaledown" true (.ok sampleConfig)) (by decide) rfl

/-- C4, direction fidelity: on a triggered watchdog tick (refreshed phase not
`"normal"`, `previousMaster` false, oracle true, configuration loaded) whose
phase is a value of one family (it contains the marker of that family and not
the marker of the other), the tick invokes the provisioning call of that family
exactly once, `provision.ScaleOut` for `"scaleup"` and `provision.ScaleIn` for
`"scaledown"`, and the call of the other family never; it invokes none of
`fetch.FetchMetrics`, `task.EvaluateTask`, `provision.GetRecommendation`. -/
theorem direction_fidelity (env : TickEnv) (v : WatchdogVars) (configStruct : ConfigStruct)
    (family : Family)
    (hp : (env.getCurrentState v.state).1.CurrentState ≠ "normal")
    (hprev : v.previousMaster = false) (hm : env.checkIfMaster = true)
    (hc : env.getConfig "config.yaml" = .ok configStruct)
    (hfam : stringsContains (env.getCurrentState v.state).1.CurrentState family.marker = true)
    (hone : stringsContains (env.getCurrentState v.state).1.CurrentState family.other.marker
      = false) :
    invocations family.call (periodicProvisionCheckTick env v).calls = 1 ∧
    invocations family.other.call (periodicProvisionCheckTick env v).calls = 0 ∧
    invocations .FetchMetrics (periodicProvisionCheckTick env v).calls = 0 ∧
    invocations .EvaluateTask (periodicProvisionCheckTick env v).calls = 0 ∧
    invocations .GetRecommendation (periodicProvisionCheckTick env v).calls = 0 := by
  cases family with
  | scaleUp =>
    have h := (watchdogTick_scaleup env v configStruct hp hprev hm hc hfam).1
    simp only [invocations_eq_count, h, Family.call, Family.other]
    decide
  | scaleDown =>
    have h := (watchdogTick_scaledown env v configStruct hp hprev hm hc hone hfam).1
    simp only [invocations_eq_count, h, Family.call, Family.other]
    decide

theorem direction_fidelity_witness :
    (invocations .ScaleOut (periodicProvisionCheckTick
        (envWith "provisioning_scaleup" true (.ok sampleConfig)) ⟨State.new, false⟩).calls = 1 ∧
      invocations .ScaleIn (periodicProvisionCheckTick
        (envWith "provisioning_scaleup" true (.ok sampleConfig)) ⟨State.new, false⟩).calls = 0 ∧
      invocations .FetchMetrics (periodicProvisionCheckTick
        (envWith "provisioning_scaleup" true (.ok sampleConfig)) ⟨State.new, false⟩).calls = 0 ∧
      invocations .EvaluateTask (periodicProvisionCheckTick
        (envWith "provisioning_scaleup" true (.ok sampleConfig)) ⟨State.new, false⟩).calls = 0 ∧
      invocations .GetRecommendation (periodicProvisionCheckTick
        (envWith "provisioning_scaleup" true (.ok sampleConfig)) ⟨State.new, false⟩).calls
          = 0) ∧
    (invocations .ScaleIn (periodicProvisionCheckTick
        (envWith "provisioning_scaledown" true (.ok sampleConfig)) ⟨State.new, false⟩).calls = 1 ∧
      invocations .ScaleOut (periodicProvisionCheckTick
        (envWith "provisioning_scaledown" true (.ok sampleConfig)) ⟨State.new, false⟩).calls = 0 ∧
      invocations .FetchMetrics (periodicProvisionCheckTick
        (envWith "provisioning_scaledown" true (.ok sampleConfig)) ⟨State.new, false⟩).calls = 0 ∧
      invocations .EvaluateTask (periodicProvisionCheckTick
        (envWith "provisioning_scaledown" true (.ok sampleConfig)) ⟨State.new, false⟩).calls = 0 ∧
      invocations .GetRecommendation (periodicProvisionCheckTick
        (envWith "provisioning_scaledown" true (.ok sampleConfig)) ⟨State.new, false⟩).calls
          = 0) :=
  ⟨direction_fidelity (envWith "provisioning_scaleup" true (.ok sampleConfig))
      ⟨State.new, false⟩ sampleConfig .scaleUp (by decide) rfl rfl rfl (by decide) (by decide),
    direction_fidelity (envWith "provisioning_scaledown" true (.ok sampleConfig))
      ⟨State.new, false⟩ sampleConfig .scaleDown (by decide) rfl rfl rfl (by decide) (by decide)⟩

/-- C5, main-loop configuration failure: on a main control loop tick with
refreshed phase `"normal"` and mastership true on which `config.GetConfig`
returns an error, the tick invokes none of `fetch.FetchMetrics`,
`task.EvaluateTask`, `provision.GetRecommendation`, `provision.ScaleOut`,
`provision.ScaleIn`, leaves `state` at the value obtained by the refresh of this
tick, and the loop goes on to the next tick from that value. -/
theorem main_config_failure (env : TickEnv) (state : State) (err : String)
    (rest : List TickEnv)
    (hp : (env.getCurrentState state).1.CurrentState = "normal")
    (hm : env.checkIfMaster = true)
    (hc : env.getConfig "config.yaml" = .error err) :
    invocations .FetchMetrics (mainTick env state).calls = 0 ∧
    invocations .EvaluateTask (mainTick env state).calls = 0 ∧
    invocations .GetRecommendation (mainTick env state).calls = 0 ∧
    invocations .ScaleOut (mainTick env state).calls = 0 ∧
    invocations .ScaleIn (mainTick env state).calls = 0 ∧
    (mainTick env state).vars = (env.getCurrentState state).1 ∧
    (mainTick env state).control = .next ∧
    mainLoop state (env :: rest) =
      (state, mainTick env state) :: mainLoop (env.getCurrentState state).1 rest := by
  have h := mainTick_error env state err hm hp hc
  refine ⟨?_, ?_, ?_, ?_, ?_, ?_, ?_, ?_⟩
  · rw [h]; simp [invocations, Call.fn]
  · rw [h]; simp [invocations, Call.fn]
  · rw [h]; simp [invocations, Call.fn]
  · rw [h]; simp [invocations, Call.fn]
  · rw [h]; simp [invocations, Call.fn]
  · rw [h]
  · rw [h]
  · simp only [mainLoop, forRange]
    rw [h]

theorem main_config_failure_witness :
    invocations .FetchMetrics
      (mainTick (envWith "normal" true (.error "invalid config")) State.new).calls = 0 ∧
    invocations .EvaluateTask
      (mainTick (envWith "normal" true (.error "invalid config")) State.new).calls = 0 ∧
    invocations .GetRecommendation
      (mainTick (envWith "normal" true (.error "invalid config")) State.new).calls = 0 ∧
    invocations .ScaleOut
      (mainTick (envWith "normal" true (.error "invalid config")) State.new).calls = 0 ∧
    invocations .ScaleIn
      (mainTick (envWith "normal" true (.error "invalid config")) State.new).calls = 0 ∧
    (mainTick (envWith "normal" true (.error "invalid config")) State.new).vars
      = ((envWith "normal" true (.error "invalid config")).getCurrentState State.new).1 ∧
    (mainTick (envWith "normal" true (.error "invalid config")) State.new).control = .next ∧
    mainLoop State.new (envWith "normal" true (.error "invalid config") ::
        [envWith "normal" true (.ok sampleConfig)]) =
      (State.new, mainTick (envWith "normal" true (.error "invalid config")) State.new) ::
        mainLoop ((envWith "normal" true (.error "invalid config")).getCurrentState State.new).1
          [envWith "normal" true (.ok sampleConfig)] :=
  main_config_failure (envWith "normal" true (.error "invalid config")) State.new
    "invalid config" [envWith "normal" true (.ok sampleConfig)] rfl rfl rfl

/-- C6, evaluated on `configErrorRun` with start-up sample false: the first
tick is triggered, `config.GetConfig` fails and the body returns, so only one
iteration is executed.  The third tick has a non-idle phase of the scale-up
family, a fresh false-to-true mastership edge and a configuration that loads,
and the loop body run there would invoke `provision.ScaleOut` once, but no
iteration exists for it. -/
theorem watchdog_config_error_ends_loop :
    (periodicProvisionCheck false State.new configErrorRun).map
        (fun x => (x.2.calls.map Call.fn, x.2.control))
      = [([.GetCurrentState, .CheckIfMaster, .GetConfig, .Println], .ret)] ∧
    (periodicProvisionCheck false State.new configErrorRun)[2]? = none ∧
    precedingObservation false configErrorRun 2 = some false ∧
    (configErrorRun.map (fun env => env.checkIfMaster))[2]? = some true ∧
    invocations .ScaleOut (periodicProvisionCheckTick
      (envWith "provisioning_scaleup" true (.ok sampleConfig))
      ⟨⟨"provisioning_scaleup"⟩, false⟩).calls = 1 :=
  ⟨by decide, by decide, by decide, by decide, by decide⟩

/-- C8 as stated fails: phase `"normal"`, mastership true, the configuration
loads, `fetch.FetchMetrics` fails, and the tick still invokes
`task.EvaluateTask` and `provision.GetRecommendation` once each. -/
theorem main_metrics_failure_counterexample :
    ((envNoMetrics "normal" true (.ok sampleConfig)).getCurrentState State.new).1.CurrentState
      = "normal" ∧
    (envNoMetrics "normal" true (.ok sampleConfig)).checkIfMaster = true ∧
    (envNoMetrics "normal" true (.ok sampleConfig)).getConfig "config.yaml"
      = .ok sampleConfig ∧
    (envNoMetrics "normal" true (.ok sampleConfig)).fetchMetrics
      ((envNoMetrics "normal" true (.ok sampleConfig)).createOsClient "admin" "secret")
      = false ∧
    invocations .EvaluateTask
      (mainTick (envNoMetrics "normal" true (.ok sampleConfig)) State.new).calls = 1 ∧
    invocations .GetRecommendation
      (mainTick (envNoMetrics "normal" true (.ok sampleConfig)) State.new).calls = 1 :=
  ⟨rfl, rfl, rfl, rfl, by decide, by decide⟩

/-- C8 amended: a main control loop tick does not inspect the outcome of
`fetch.FetchMetrics`.  With refreshed phase `"normal"`, mastership true and a
loaded configuration, a tick on which `fetch.FetchMetrics` fails still invokes
`fetch.FetchMetrics`, `task.EvaluateTask` and `provision.GetRecommendation`, in
that order and once each, makes no call of its own to `provision.ScaleOut` or
`provision.ScaleIn`, and leaves `state` as `provision.GetRecommendation` leaves
it. -/
theorem main_metrics_unchecked (env : TickEnv) (state : State) (configStruct : ConfigStruct)
    (hp : (env.getCurrentState state).1.CurrentState = "normal")
    (hm : env.checkIfMaster = true)
    (hc : env.getConfig "config.yaml" = .ok configStruct)
    (_hfail : env.fetchMetrics
      (env.createOsClient configStruct.ClusterDetails.OsCredentials.OsAdminUsername
        configStruct.ClusterDetails.OsCredentials.OsAdminPassword) = false) :
    (mainTick env state).calls.map Call.fn =
      [.GetCurrentState, .CheckIfMaster, .GetConfig, .CreateOsClient, .FetchMetrics,
        .EvaluateTask, .GetRecommendation] ∧
    invocations .EvaluateTask (mainTick env state).calls = 1 ∧
    invocations .GetRecommendation (mainTick env state).calls = 1 ∧
    invocations .ScaleOut (mainTick env state).calls = 0 ∧
    invocations .ScaleIn (mainTick env state).calls = 0 ∧
    (mainTick env state).vars =
      env.getRecommendation (env.getCurrentState state).1
        (env.evaluateTask configStruct.TaskDetails
          (env.createOsClient configStruct.ClusterDetails.OsCredentials.OsAdminUsername
            configStruct.ClusterDetails.OsCredentials.OsAdminPassword))
        (env.createOsClient configStruct.ClusterDetails.OsCredentials.OsAdminUsername
          configStruct.ClusterDetails.OsCredentials.OsAdminPassword) := by
  rw [mainTick_ok env state configStruct hm hp hc]
  simp [invocations, Call.fn]

theorem main_metrics_unchecked_witness :
    (mainTick (envNoMetrics "normal" true (.ok sampleConfig)) State.new).calls.map Call.fn =
      [.GetCurrentState, .CheckIfMaster, .GetConfig, .CreateOsClient, .FetchMetrics,
        .EvaluateTask, .GetRecommendation] ∧
    invocations .EvaluateTask
      (mainTick (envNoMetrics "normal" true (.ok sampleConfig)) State.new).calls = 1 ∧
    invocations .GetRecommendation
      (mainTick (envNoMetrics "normal" true (.ok sampleConfig)) State.new).calls = 1 ∧
    invocations .ScaleOut
      (mainTick (envNoMetrics "normal" true (.ok sampleConfig)) State.new).calls = 0 ∧
    invocations .ScaleIn
      (mainTick (envNoMetrics "normal" true (.ok sampleConfig)) State.new).calls = 0 ∧
    (mainTick (envNoMetrics "normal" true (.ok sampleConfig)) State.new).vars = ⟨"normal"⟩ :=
  main_metrics_unchecked (envNoMetrics "normal" true (.ok sampleConfig)) State.new sampleConfig
    rfl rfl rfl rfl

/-- C9, one full cycle per idle-and-master tick: on a main control loop tick
with refreshed phase `"normal"`, mastership true and a configuration that loads,
the calls of the tick are, in this order and once each, `state.GetCurrentState`,
`cluster.CheckIfMaster`, `config.GetConfig`, `utils.CreateOsClient`,
`fetch.FetchMetrics`, `task.EvaluateTask` on the `TaskDetails` of the loaded
configuration, and `provision.GetRecommendation` on the list that
`task.EvaluateTask` returned; no function is called twice. -/
theorem main_full_cycle (env : TickEnv) (state : State) (configStruct : ConfigStruct)
    (hp : (env.getCurrentState state).1.CurrentState = "normal")
    (hm : env.checkIfMaster = true)
    (hc : env.getConfig "config.yaml" = .ok configStruct) :
    (mainTick env state).calls =
      [.GetCurrentState, .CheckIfMaster, .GetConfig "config.yaml",
        .CreateOsClient configStruct.ClusterDetails.OsCredentials.OsAdminUsername
          configStruct.ClusterDetails.OsCredentials.OsAdminPassword,
        .FetchMetrics
          (env.createOsClient configStruct.ClusterDetails.OsCredentials.OsAdminUsername
            configStruct.ClusterDetails.OsCredentials.OsAdminPassword),
        .EvaluateTask configStruct.TaskDetails
          (env.createOsClient configStruct.ClusterDetails.OsCredentials.OsAdminUsername
            configStruct.ClusterDetails.OsCredentials.OsAdminPassword),
        .GetRecommendation (env.getCurrentState state).1
          (env.evaluateTask configStruct.TaskDetails
            (env.createOsClient configStruct.ClusterDetails.OsCredentials.OsAdminUsername
              configStruct.ClusterDetails.OsCredentials.OsAdminPassword))
          (env.createOsClient configStruct.ClusterDetails.OsCredentials.OsAdminUsername
            configStruct.ClusterDetails.OsCredentials.OsAdminPassword)] ∧
    invocations .FetchMetrics (mainTick env state).calls = 1 ∧
    invocations .EvaluateTask (mainTick env state).calls = 1 ∧
    invocations .GetRecommendation (mainTick env state).calls = 1 ∧
    ((mainTick env state).calls.map Call.fn).Nodup := by
  rw [mainTick_ok env state configStruct hm hp hc]
  simp [invocations, Call.fn]

theorem main_full_cycle_witness :
    (mainTick (envWith "normal" true (.ok sampleConfig)) State.new).calls =
      [.GetCurrentState, .CheckIfMaster, .GetConfig "config.yaml",
        .CreateOsClient "admin" "secret", .FetchMetrics ⟨0⟩, .EvaluateTask ["task1"] ⟨0⟩,
        .GetRecommendation ⟨"normal"⟩ ["task1"] ⟨0⟩] ∧
    invocations .FetchMetrics
      (mainTick (envWith "normal" true (.ok sampleConfig)) State.new).calls = 1 ∧
    invocations .EvaluateTask
      (mainTick (envWith "normal" true (.ok sampleConfig)) State.new).calls = 1 ∧
    invocations .GetRecommendation
      (mainTick (envWith "normal" true (.ok sampleConfig)) State.new).calls = 1 ∧
    ((mainTick (envWith "normal" true (.ok sampleConfig)) State.new).calls.map Call.fn).Nodup :=
  main_full_cycle (envWith "normal" true (.ok sampleConfig)) State.new sampleConfig rfl rfl rfl

/-- C10, a process that is already master at start-up never resumes: when the
start-up sample of `cluster.CheckIfMaster` is true and the oracle answers true
on every tick, every tick of `periodicProvisionCheck` is executed and none
invokes `provision.ScaleOut` or `provision.ScaleIn`, whatever the phases are. -/
theorem master_at_startup_never_resumes (state : State) (envs : List TickEnv)
    (hall : ∀ env ∈ envs, env.checkIfMaster = true) :
    (periodicProvisionCheck true state envs).length = envs.length ∧
    ∀ x ∈ periodicProvisionCheck true state envs,
      invocations .ScaleOut x.2.calls = 0 ∧ invocations .ScaleIn x.2.calls = 0 := by
  have h := watchdog_master_run envs ⟨state, true⟩ rfl hall
  refine ⟨h.1, ?_⟩
  intro x hx
  have hcalls := h.2 x hx
  rw [hcalls]
  simp [invocations, Call.fn]

theorem master_at_startup_never_resumes_witness :
    (periodicProvisionCheck true State.new masterTwiceRun).length = masterTwiceRun.length ∧
    ∀ x ∈ periodicProvisionCheck true State.new masterTwiceRun,
      invocations .ScaleOut x.2.calls = 0 ∧ invocations .ScaleIn x.2.calls = 0 :=
  master_at_startup_never_resumes State.new masterTwiceRun (by
    intro env henv
    simp only [masterTwiceRun, List.mem_cons, List.mem_singleton, List.not_mem_nil,
      or_false, or_self] at henv
    rw [henv]
    rfl)

end ScalingManager
